import Mathlib

/-!
Verification development for the FeatureProbe Go server SDK
(`event.go`, `featureprobe.go` and its tests).

Go runtime-typed `interface\x7b\x7d` decision values are embedded as the
inductive `GoValue`; Go `*int` / `*uint64` optional fields as `Option`;
Go maps as association lists preserving insertion order (a deterministic
refinement of Go's unspecified map iteration order); Go `float64` payloads
as `ℚ` (no floating arithmetic is performed by the modelled code beyond
`float64(i)` conversion of integers, embedded as the cast `ℤ → ℚ`).
-/

/-- A runtime-typed Go value (`interface\x7b\x7d`): the kinds a toggle
variation or default can carry. Go distinguishes `int` from `float64` at
runtime type assertions, so they are separate constructors. -/
inductive GoValue where
  | boolV (b : Bool)
  | strV (s : String)
  | intV (i : Int)
  | floatV (q : ℚ)
  | nullV
  | jsonV (tag : Nat)
  deriving DecidableEq, Repr

/-- `AccessEvent` from event.go: one record per evaluation call. -/
structure AccessEvent where
  time : Int
  key : String
  value : GoValue
  index : Option Int
  version : Option Nat
  reason : String
  deriving DecidableEq, Repr

/-- `Variation` from event.go: the grouping key used by `buildCounters`. -/
structure Variation where
  key : String
  index : Option Int
  version : Option Nat
  deriving DecidableEq, Repr

/-- `CountValue` from event.go. -/
structure CountValue where
  count : Nat
  value : GoValue
  deriving DecidableEq, Repr

/-- `ToggleCounter` from event.go. -/
structure ToggleCounter where
  value : GoValue
  version : Option Nat
  index : Option Int
  count : Nat
  deriving DecidableEq, Repr

/-- `Access` from event.go; the `counters` Go map is an association list. -/
structure Access where
  startTime : Int
  endTime : Int
  counters : List (String × List ToggleCounter)
  deriving DecidableEq, Repr

/-- `PackedData` from event.go. -/
structure PackedData where
  events : List AccessEvent
  access : Access
  deriving DecidableEq, Repr

/-- Association-list lookup, embedding a Go map read `m[k]`. -/
def alistLookup {α β : Type} [DecidableEq α] : List (α × β) → α → Option β
  | [], _ => none
  | (k, v) :: rest, key => if key = k then some v else alistLookup rest key

/-- Association-list update of an existing key, embedding `m[k] = v`. -/
def alistUpdate {α β : Type} [DecidableEq α] : List (α × β) → α → β → List (α × β)
  | [], _, _ => []
  | (k, v) :: rest, key, nv =>
      if key = k then (k, nv) :: rest else (k, v) :: alistUpdate rest key nv

/-- One loop iteration of `buildCounters` (event.go lines 156-171) acting on
the accumulated `(counters, startTime, endTime)` state. Note two behaviours
of the source carried over verbatim: `startTime` is replaced whenever it is
smaller than the event time (so it tracks the maximum) and `endTime`
whenever it is larger (so it tracks the minimum); and in the `ok` branch
`c.Count += 1` increments a copy of the map value that is never stored back
into the map, so the stored count is left unchanged. -/
def buildCountersStep (st : List (Variation × CountValue) × Option Int × Option Int)
    (event : AccessEvent) : List (Variation × CountValue) × Option Int × Option Int :=
  let (counters, startTime, endTime) := st
  let startTime :=
    match startTime with
    | none => some event.time
    | some s => if s < event.time then some event.time else some s
  let endTime :=
    match endTime with
    | none => some event.time
    | some e => if e > event.time then some event.time else some e
  let v : Variation := { key := event.key, version := event.version, index := event.index }
  let counters :=
    match alistLookup counters v with
    | none => counters ++ [(v, { count := 1, value := event.value })]
    | some _ => counters
  (counters, startTime, endTime)

/-- `buildCounters` from event.go lines 151-173. The Go function
dereferences `startTime` and `endTime` unconditionally at the end, which
panics on an empty batch; that failure is embedded as `none`. -/
def buildCounters (events : List AccessEvent) :
    Option (List (Variation × CountValue) × Int × Int) :=
  match events.foldl buildCountersStep ([], none, none) with
  | (counters, some s, some e) => some (counters, s, e)
  | _ => none

/-- `buildAccess` from event.go lines 126-149: regroups the per-variation
counters into the per-toggle-key map of `ToggleCounter`s. -/
def buildAccess (events : List AccessEvent) : Option Access :=
  (buildCounters events).map fun (counters, startTime, endTime) =>
    { startTime := startTime
      endTime := endTime
      counters := counters.foldl (fun acc kv =>
        let k := kv.1
        let v := kv.2
        let counter : ToggleCounter :=
          { index := k.index, version := k.version, count := v.count, value := v.value }
        match alistLookup acc k.key with
        | none => acc ++ [(k.key, [counter])]
        | some c => alistUpdate acc k.key (c ++ [counter])) [] }

/-- `buildPackedData` from event.go lines 120-124: wraps the batch and its
access summary in a one-element slice. -/
def buildPackedData (events : List AccessEvent) : Option (List PackedData) :=
  (buildAccess events).map fun access => [{ access := access, events := events }]

/-- A JSON document, the target of Go's `json.Marshal` in `doFlush`. -/
inductive Json where
  | null
  | boolJ (b : Bool)
  | numJ (q : ℚ)
  | strJ (s : String)
  | arr (xs : List Json)
  | obj (fields : List (String × Json))

/-- `json.Marshal` on an `interface\x7b\x7d` value. -/
def encodeGoValue : GoValue → Json
  | .boolV b => .boolJ b
  | .strV s => .strJ s
  | .intV i => .numJ (i : ℚ)
  | .floatV q => .numJ q
  | .nullV => .null
  | .jsonV _ => .obj []

/-- `json.Marshal` on an optional (`*int`-style) field: Go encodes a nil
pointer as `null` (the json tags in event.go carry no omitempty). -/
def encodeOptInt : Option Int → Json
  | none => .null
  | some i => .numJ (i : ℚ)

/-- `json.Marshal` on a `*uint64` field. -/
def encodeOptNat : Option Nat → Json
  | none => .null
  | some n => .numJ (n : ℚ)

/-- `json.Marshal` of an `AccessEvent`, following the json struct tags of
event.go lines 27-34. -/
def encodeEvent (e : AccessEvent) : Json :=
  .obj [("time", .numJ (e.time : ℚ)), ("key", .strJ e.key),
        ("value", encodeGoValue e.value), ("index", encodeOptInt e.index),
        ("version", encodeOptNat e.version), ("reason", .strJ e.reason)]

/-- `json.Marshal` of a `ToggleCounter` (event.go lines 47-52). -/
def encodeCounter (c : ToggleCounter) : Json :=
  .obj [("value", encodeGoValue c.value), ("version", encodeOptNat c.version),
        ("index", encodeOptInt c.index), ("count", .numJ (c.count : ℚ))]

/-- `json.Marshal` of an `Access` (event.go lines 41-45); the counters map
serializes as a JSON object. -/
def encodeAccess (a : Access) : Json :=
  .obj [("startTime", .numJ (a.startTime : ℚ)), ("endTime", .numJ (a.endTime : ℚ)),
        ("counters", .obj (a.counters.map fun kv => (kv.1, .arr (kv.2.map encodeCounter))))]

/-- `json.Marshal` of a `PackedData` (event.go lines 36-39). -/
def encodePacked (p : PackedData) : Json :=
  .obj [("events", .arr (p.events.map encodeEvent)), ("access", encodeAccess p.access)]

/-- `json.Marshal` of the `[]PackedData` slice that `doFlush` posts: a Go
slice serializes as a JSON array. -/
def encodePackedList (ps : List PackedData) : Json :=
  .arr (ps.map encodePacked)

/-- The JSON body of the telemetry POST issued by `doFlush` (event.go lines
96-118) for a drained batch: `none` when the batch is empty (no network
call is made). -/
def flushBody (events : List AccessEvent) : Option Json :=
  if events.isEmpty then none
  else (buildPackedData events).map encodePackedList

/-- Whether a JSON document is a single top-level object. -/
def Json.isObj : Json → Bool
  | .obj _ => true
  | _ => false

/-- `RecordAccess` from event.go lines 175-179: appends one event to the
recorder's pending queue. -/
def RecordAccess (incomingEvents : List AccessEvent) (event : AccessEvent) :
    List AccessEvent :=
  incomingEvents ++ [event]

/-- Modelled from the spec: `FPUser` (user.go is not among the sources) is
an identity key plus a string attribute map, optionally pinned for stable
rollout; only its presence as an evaluation input matters here. -/
structure FPUser where
  key : String
  attrs : List (String × String)
  deriving DecidableEq, Repr

/-- Modelled from the spec: `Segment` (repository.go is not among the
sources) is a named reusable predicate; the facade only threads segments
through to the evaluator, so the body is kept abstract as its key. -/
structure Segment where
  key : String
  deriving DecidableEq, Repr

/-- Modelled from the spec: `Toggle` (repository.go is not among the
sources) carries key, enabled flag, version and a variation list; the
facade passes it whole to the evaluator. -/
structure Toggle where
  key : String
  enabled : Bool
  version : Nat
  variations : List GoValue
  deriving DecidableEq, Repr

/-- Modelled from the spec: `Repository` (repository.go is not among the
sources) is the toggles map plus the segments map, both embedded as
association lists. -/
structure Repository where
  toggles : List (String × Toggle)
  segments : List (String × Segment)
  deriving DecidableEq, Repr

/-- `EvalDetail` as consumed by `genericDetail` (featureprobe.go): value,
optional variation index, optional rule index, optional version, reason. -/
structure EvalDetail where
  value : GoValue
  variationIndex : Option Int
  ruleIndex : Option Int
  version : Option Nat
  reason : String
  deriving DecidableEq, Repr

/-- Modelled from the spec: the evaluation engine `Toggle.evalDetail`
(eval.go is not among the sources) is abstracted as a function from toggle,
user and segment map to an `EvalDetail` plus an optional error, exactly the
shape `genericDetail` consumes; the facade claims hold for every such
engine. -/
def EvalFn : Type :=
  Toggle → FPUser → List (String × Segment) → EvalDetail × Option String

/-- The quadruple returned by `genericDetail`. -/
structure GenericResult where
  value : GoValue
  ruleIndex : Option Int
  version : Option Nat
  reason : String
  deriving DecidableEq, Repr

/-- `genericDetail` from featureprobe.go: the single generic entry point
behind all eight accessors. The second component collects the events the
call hands to `RecordAccess` (empty or a singleton); `hasRecorder` embeds
`fp.Recorder != nil` and `now` the millisecond timestamp taken at record
time. The Go function returns before reaching the recorder when the
repository is nil or the key is missing. -/
def genericDetail (evalFn : EvalFn) (repo : Option Repository) (hasRecorder : Bool)
    (now : Int) (toggle : String) (user : FPUser) (defaultValue : GoValue) :
    GenericResult × List AccessEvent :=
  let notExist : GenericResult :=
    { value := defaultValue, ruleIndex := none, version := none,
      reason := "Toggle:[" ++ toggle ++ "] not exist" }
  match repo with
  | none => (notExist, [])
  | some r =>
    match alistLookup r.toggles toggle with
    | none => (notExist, [])
    | some t =>
      let (detail, err) := evalFn t user r.segments
      let value := match err with | none => detail.value | some _ => defaultValue
      let events :=
        if hasRecorder then
          [{ time := now, key := toggle, value := value, index := detail.variationIndex,
             version := detail.version, reason := detail.reason : AccessEvent }]
        else []
      ({ value := value, ruleIndex := detail.ruleIndex, version := detail.version,
         reason := detail.reason }, events)

/-- `FPBoolDetail` from featureprobe.go. -/
structure FPBoolDetail where
  value : Bool
  ruleIndex : Option Int
  version : Option Nat
  reason : String
  deriving DecidableEq, Repr

/-- `FPStrDetail` from featureprobe.go. -/
structure FPStrDetail where
  value : String
  ruleIndex : Option Int
  version : Option Nat
  reason : String
  deriving DecidableEq, Repr

/-- `FPNumberDetail` from featureprobe.go (`float64` embedded as `ℚ`). -/
structure FPNumberDetail where
  value : ℚ
  ruleIndex : Option Int
  version : Option Nat
  reason : String
  deriving DecidableEq, Repr

/-- `FPJsonDetail` from featureprobe.go. -/
structure FPJsonDetail where
  value : GoValue
  ruleIndex : Option Int
  version : Option Nat
  reason : String
  deriving DecidableEq, Repr

/-- `BoolValue` from featureprobe.go: type assertion `val.(bool)`, falling
back to the default on failure. Returns the value and the recorded events. -/
def BoolValue (evalFn : EvalFn) (repo : Option Repository) (hasRecorder : Bool)
    (now : Int) (toggle : String) (user : FPUser) (defaultValue : Bool) :
    Bool × List AccessEvent :=
  let (g, evs) := genericDetail evalFn repo hasRecorder now toggle user (.boolV defaultValue)
  (match g.value with | .boolV b => b | _ => defaultValue, evs)

/-- `StrValue` from featureprobe.go. -/
def StrValue (evalFn : EvalFn) (repo : Option Repository) (hasRecorder : Bool)
    (now : Int) (toggle : String) (user : FPUser) (defaultValue : String) :
    String × List AccessEvent :=
  let (g, evs) := genericDetail evalFn repo hasRecorder now toggle user (.strV defaultValue)
  (match g.value with | .strV s => s | _ => defaultValue, evs)

/-- `NumberValue` from featureprobe.go: asserts `val.(int)` first (returning
`float64(i)`), then `val.(float64)`, else the default. -/
def NumberValue (evalFn : EvalFn) (repo : Option Repository) (hasRecorder : Bool)
    (now : Int) (toggle : String) (user : FPUser) (defaultValue : ℚ) :
    ℚ × List AccessEvent :=
  let (g, evs) := genericDetail evalFn repo hasRecorder now toggle user (.floatV defaultValue)
  (match g.value with
   | .intV i => (i : ℚ)
   | .floatV q => q
   | _ => defaultValue, evs)

/-- `JsonValue` from featureprobe.go: returns the generic value unchanged. -/
def JsonValue (evalFn : EvalFn) (repo : Option Repository) (hasRecorder : Bool)
    (now : Int) (toggle : String) (user : FPUser) (defaultValue : GoValue) :
    GoValue × List AccessEvent :=
  let (g, evs) := genericDetail evalFn repo hasRecorder now toggle user defaultValue
  (g.value, evs)

/-- `BoolDetail` from featureprobe.go: on a failed `val.(bool)` assertion the
reason is replaced by "Value type mismatch" and the value by the default,
keeping rule index and version. -/
def BoolDetail (evalFn : EvalFn) (repo : Option Repository) (hasRecorder : Bool)
    (now : Int) (toggle : String) (user : FPUser) (defaultValue : Bool) :
    FPBoolDetail × List AccessEvent :=
  let (g, evs) := genericDetail evalFn repo hasRecorder now toggle user (.boolV defaultValue)
  (match g.value with
   | .boolV b => { value := b, ruleIndex := g.ruleIndex, version := g.version, reason := g.reason }
   | _ => { value := defaultValue, ruleIndex := g.ruleIndex, version := g.version,
            reason := "Value type mismatch" }, evs)

/-- `StrDetail` from featureprobe.go. -/
def StrDetail (evalFn : EvalFn) (repo : Option Repository) (hasRecorder : Bool)
    (now : Int) (toggle : String) (user : FPUser) (defaultValue : String) :
    FPStrDetail × List AccessEvent :=
  let (g, evs) := genericDetail evalFn repo hasRecorder now toggle user (.strV defaultValue)
  (match g.value with
   | .strV s => { value := s, ruleIndex := g.ruleIndex, version := g.version, reason := g.reason }
   | _ => { value := defaultValue, ruleIndex := g.ruleIndex, version := g.version,
            reason := "Value type mismatch" }, evs)

/-- `NumberDetail` from featureprobe.go: unlike `NumberValue`, only the
`val.(float64)` assertion is attempted. -/
def NumberDetail (evalFn : EvalFn) (repo : Option Repository) (hasRecorder : Bool)
    (now : Int) (toggle : String) (user : FPUser) (defaultValue : ℚ) :
    FPNumberDetail × List AccessEvent :=
  let (g, evs) := genericDetail evalFn repo hasRecorder now toggle user (.floatV defaultValue)
  (match g.value with
   | .floatV q => { value := q, ruleIndex := g.ruleIndex, version := g.version, reason := g.reason }
   | _ => { value := defaultValue, ruleIndex := g.ruleIndex, version := g.version,
            reason := "Value type mismatch" }, evs)

/-- `JsonDetail` from featureprobe.go: no type assertion at all. -/
def JsonDetail (evalFn : EvalFn) (repo : Option Repository) (hasRecorder : Bool)
    (now : Int) (toggle : String) (user : FPUser) (defaultValue : GoValue) :
    FPJsonDetail × List AccessEvent :=
  let (g, evs) := genericDetail evalFn repo hasRecorder now toggle user defaultValue
  ({ value := g.value, ruleIndex := g.ruleIndex, version := g.version, reason := g.reason }, evs)

/-- `fp.Repo != nil && toggle key present`: the condition under which
`genericDetail` reaches its recording branch. -/
def repoHasToggle (repo : Option Repository) (toggle : String) : Bool :=
  match repo with
  | none => false
  | some r => (alistLookup r.toggles toggle).isSome

/-- Lifecycle state of an `EventRecorder` (event.go): the `sync.WaitGroup`
counter, the number of flush goroutines launched, whether the ticker is
live, the two `sync.Once` guards, and how many final (stop-triggered)
flushes ran. -/
structure RecorderState where
  wgCount : Nat
  loops : Nat
  tickerRunning : Bool
  startedOnce : Bool
  stoppedOnce : Bool
  finalFlushes : Nat
  deriving DecidableEq, Repr

/-- The state of a freshly constructed recorder (`NewEventRecorder`). -/
def recorderInit : RecorderState :=
  { wgCount := 0, loops := 0, tickerRunning := false,
    startedOnce := false, stoppedOnce := false, finalFlushes := 0 }

/-- `Start` from event.go lines 77-94: `e.wg.Add(1)` executes on every
call, outside the `startOnce.Do` guard; the once body creates the ticker
and launches the single flush goroutine. -/
def startRecorder (s : RecorderState) : RecorderState :=
  let s := { s with wgCount := s.wgCount + 1 }
  if s.startedOnce then s
  else { s with startedOnce := true, tickerRunning := true, loops := s.loops + 1 }

/-- `n` consecutive calls to `Start` on a fresh recorder. -/
def startRecorderN : Nat → RecorderState
  | 0 => recorderInit
  | n + 1 => startRecorder (startRecorderN n)

/-- The effect of `Stop` (event.go lines 181-188) up to the `wg.Wait()`:
`stopOnce.Do(close(stopChan))`, upon which each launched flush loop runs
one final `doFlush`, calls `wg.Done` once and returns. The ticker is never
stopped anywhere in the source. -/
def stopRecorder (s : RecorderState) : RecorderState :=
  if s.stoppedOnce then s
  else { s with stoppedOnce := true, finalFlushes := s.finalFlushes + s.loops,
                wgCount := s.wgCount - s.loops }

/-- `wg.Wait()` at the end of `Stop` returns exactly when the WaitGroup
counter has come down to zero; otherwise the caller blocks forever. -/
@[reducible] def stopReturns (s : RecorderState) : Prop :=
  (stopRecorder s).wgCount = 0

/-- `FPConfig` from featureprobe.go. -/
structure FPConfig where
  remoteUrl : String
  togglesUrl : String
  eventsUrl : String
  serverSdkKey : String
  refreshInterval : Int
  waitFirstResp : Bool
  deriving DecidableEq, Repr

/-- The `Option` functional-option type of featureprobe.go (named
`FPOption` here to avoid clashing with Lean's `Option`). -/
def FPOption : Type := FPConfig → FPConfig

/-- `WithTogglesUri` from featureprobe.go. -/
def WithTogglesUri (uri : String) : FPOption :=
  fun c => { c with togglesUrl := c.remoteUrl ++ uri }

/-- `WithEventsUri` from featureprobe.go. -/
def WithEventsUri (uri : String) : FPOption :=
  fun c => { c with eventsUrl := c.remoteUrl ++ uri }

/-- `WithRefreshInterval` from featureprobe.go. -/
def WithRefreshInterval (interval : Int) : FPOption :=
  fun c => { c with refreshInterval := interval }

/-- `WithWaitFirstResp` from featureprobe.go. -/
def WithWaitFirstResp (wait : Bool) : FPOption :=
  fun c => { c with waitFirstResp := wait }

/-- `strings.HasSuffix(remoteUrl, "/")` as used by `NewFeatureProbe`: for
the one-character pattern it checks the last character. -/
def endsWithSlash (s : String) : Bool :=
  match s.data.getLast? with
  | some c => c = '/'
  | none => false

/-- The configuration part of `NewFeatureProbe` (featureprobe.go lines
536-567): slash-terminate the remote URL, fill the defaults, then apply the
options in order. -/
def NewFeatureProbeConfig (remoteUrl serverSdkKey : String)
    (opts : List FPOption) : FPConfig :=
  let r := if endsWithSlash remoteUrl then remoteUrl else remoteUrl ++ "/"
  let base : FPConfig :=
    { remoteUrl := r, togglesUrl := r ++ "api/server-sdk/toggles",
      eventsUrl := r ++ "api/events", serverSdkKey := serverSdkKey,
      refreshInterval := 2000, waitFirstResp := true }
  opts.foldl (fun c opt => opt c) base

/-- Substring containment over the underlying character data, used to state
that a reason string contains a given fragment. -/
def strContains (s pat : String) : Prop :=
  ∃ a b : List Char, s.data = a ++ pat.data ++ b

/-- Runtime kind test embedding Go's `val.(bool)` assertion success. -/
def isBoolValue : GoValue → Bool
  | .boolV _ => true
  | _ => false

/-- Runtime kind test embedding Go's `val.(string)` assertion success. -/
def isStrValue : GoValue → Bool
  | .strV _ => true
  | _ => false

/-- Runtime kind test embedding Go's `val.(float64)` assertion success. -/
def isFloatValue : GoValue → Bool
  | .floatV _ => true
  | _ => false

/-- A concrete event used as input for the event-pipeline evaluations:
fixed key, variation index and version; only the timestamp varies. -/
def sampleEvent (t : Int) : AccessEvent :=
  { time := t, key := "k", value := .boolV true, index := some 0,
    version := some 1, reason := "r" }

/-- A trivial concrete evaluation engine, used to instantiate the
engine-polymorphic facade statements. -/
def constEvalFn : EvalFn := fun _ _ _ =>
  ({ value := .nullV, variationIndex := none, ruleIndex := none,
     version := none, reason := "" }, none)

/-- A concrete user. -/
def user0 : FPUser := { key := "u", attrs := [] }

/-- The evaluation detail of a toggle whose resolved variation is the Go
`int` 2, as in the `number_toggle` scenarios of featureprobe_test.go. -/
def detailInt2 : EvalDetail :=
  { value := .intV 2, variationIndex := some 0, ruleIndex := some 0,
    version := some 1, reason := "default rule" }

/-- An evaluation engine resolving every toggle to `detailInt2`. -/
def evalInt2 : EvalFn := fun _ _ _ => (detailInt2, none)

/-- A concrete integer-valued toggle. -/
def toggle0 : Toggle :=
  { key := "t", enabled := true, version := 1, variations := [.intV 1, .intV 2] }

/-- A repository holding only `toggle0` under key "t". -/
def repo0 : Repository := { toggles := [("t", toggle0)], segments := [] }

lemma genericDetail_not_found (evalFn : EvalFn) (repo : Option Repository) (hasRec : Bool)
    (now : Int) (toggle : String) (user : FPUser) (dv : GoValue)
    (habs : repoHasToggle repo toggle = false) :
    genericDetail evalFn repo hasRec now toggle user dv =
      ({ value := dv, ruleIndex := none, version := none,
         reason := "Toggle:[" ++ toggle ++ "] not exist" }, []) := by
  cases repo with
  | none => rfl
  | some r =>
    have h : alistLookup r.toggles toggle = none := by
      cases hl : alistLookup r.toggles toggle with
      | none => rfl
      | some t => simp [repoHasToggle, hl] at habs
    simp [genericDetail, h]

lemma notExist_reason_contains (toggle : String) :
    strContains ("Toggle:[" ++ toggle ++ "] not exist") "not exist" := by
  refine ⟨("Toggle:[" ++ toggle).data ++ "] ".data, [], ?_⟩
  simp [String.data_append, List.append_assoc]

lemma genericDetail_found (evalFn : EvalFn) (r : Repository) (hasRec : Bool)
    (now : Int) (toggle : String) (user : FPUser) (dv : GoValue)
    (t : Toggle) (detail : EvalDetail)
    (ht : alistLookup r.toggles toggle = some t)
    (he : evalFn t user r.segments = (detail, none)) :
    genericDetail evalFn (some r) hasRec now toggle user dv =
      ({ value := detail.value, ruleIndex := detail.ruleIndex, version := detail.version,
         reason := detail.reason },
       if hasRec then
         [{ time := now, key := toggle, value := detail.value, index := detail.variationIndex,
            version := detail.version, reason := detail.reason : AccessEvent }]
       else []) := by
  simp [genericDetail, ht, he]

lemma step_times_isSome (st : List (Variation × CountValue) × Option Int × Option Int)
    (x : AccessEvent) :
    ((buildCountersStep st x).2.1).isSome = true ∧
    ((buildCountersStep st x).2.2).isSome = true := by
  obtain ⟨cs, st1, et1⟩ := st
  cases st1 <;> cases et1 <;>
    simp only [buildCountersStep] <;>
    refine ⟨?_, ?_⟩ <;>
    first
      | rfl
      | (split <;> rfl)

lemma foldl_times_isSome (evs : List AccessEvent)
    (st : List (Variation × CountValue) × Option Int × Option Int)
    (h : (st.2.1).isSome = true ∧ (st.2.2).isSome = true) :
    (((evs.foldl buildCountersStep st).2.1).isSome = true ∧
     ((evs.foldl buildCountersStep st).2.2).isSome = true) := by
  induction evs generalizing st with
  | nil => exact h
  | cons x xs ih => rw [List.foldl_cons]; exact ih _ (step_times_isSome st x)

lemma buildCounters_isSome (events : List AccessEvent) (hne : events ≠ []) :
    ∃ r, buildCounters events = some r := by
  cases events with
  | nil => exact absurd rfl hne
  | cons x xs =>
    have h := foldl_times_isSome xs (buildCountersStep ([], none, none) x)
      (step_times_isSome _ x)
    unfold buildCounters
    rw [List.foldl_cons]
    rcases hres : xs.foldl buildCountersStep (buildCountersStep ([], none, none) x)
      with ⟨cs, ost, oet⟩
    rw [hres] at h
    obtain ⟨h1, h2⟩ := h
    obtain ⟨s, hs⟩ := Option.isSome_iff_exists.mp h1
    obtain ⟨e, he⟩ := Option.isSome_iff_exists.mp h2
    subst hs he
    exact ⟨(cs, s, e), rfl⟩

lemma buildAccess_isSome (events : List AccessEvent) (hne : events ≠ []) :
    ∃ a, buildAccess events = some a := by
  obtain ⟨r, hr⟩ := buildCounters_isSome events hne
  unfold buildAccess
  rw [hr]
  exact ⟨_, rfl⟩

/-- Claim C1: the claim expects N recorded events with identical (toggle
key, variation index, version) to collapse into one counter whose count is
N; evaluating the embedded `buildAccess` on two such events shows the batch
does collapse to one `ToggleCounter` for the key, but its count stays 1
because `buildCounters` increments a copy of the map value that is never
written back. -/
theorem buildAccess_identical_events_count_stays_one :
    buildAccess [sampleEvent 1, sampleEvent 1] =
      some { startTime := 1, endTime := 1,
             counters := [("k", [{ value := .boolV true, version := some 1,
                                   index := some 0, count := 1 }])] } := by
  decide

/-- Claim C2 (counterexample): calling `BoolValue` on a client whose
repository is nil, with a non-nil recorder, enqueues no `AccessEvent` at
all — not the exactly one the claim requires. -/
theorem boolValue_nil_repo_enqueues_no_event :
    (BoolValue constEvalFn none true 7 "bool_toggle" user0 true).2 = [] ∧
    (BoolValue constEvalFn none true 7 "bool_toggle" user0 true).2.length ≠ 1 := by
  decide

/-- Claim C2 (amended): with a non-nil recorder, each of the eight
value/detail accessors enqueues exactly one `AccessEvent` when the
repository is non-nil and holds the toggle key, and none at all when the
repository is nil or the key is absent (the default-due-to-absence paths
return before reaching the recorder). -/
theorem accessors_enqueue_event_iff_toggle_found
    (evalFn : EvalFn) (repo : Option Repository) (now : Int)
    (toggle : String) (user : FPUser)
    (bd : Bool) (sd : String) (nd : ℚ) (jd : GoValue) :
    (BoolValue evalFn repo true now toggle user bd).2.length =
      (if repoHasToggle repo toggle then 1 else 0) ∧
    (StrValue evalFn repo true now toggle user sd).2.length =
      (if repoHasToggle repo toggle then 1 else 0) ∧
    (NumberValue evalFn repo true now toggle user nd).2.length =
      (if repoHasToggle repo toggle then 1 else 0) ∧
    (JsonValue evalFn repo true now toggle user jd).2.length =
      (if repoHasToggle repo toggle then 1 else 0) ∧
    (BoolDetail evalFn repo true now toggle user bd).2.length =
      (if repoHasToggle repo toggle then 1 else 0) ∧
    (StrDetail evalFn repo true now toggle user sd).2.length =
      (if repoHasToggle repo toggle then 1 else 0) ∧
    (NumberDetail evalFn repo true now toggle user nd).2.length =
      (if repoHasToggle repo toggle then 1 else 0) ∧
    (JsonDetail evalFn repo true now toggle user jd).2.length =
      (if repoHasToggle repo toggle then 1 else 0) := by
  have key : ∀ dv : GoValue, (genericDetail evalFn repo true now toggle user dv).2.length =
      (if repoHasToggle repo toggle then 1 else 0) := by
    intro dv
    cases repo with
    | none => rfl
    | some r =>
      cases hl : alistLookup r.toggles toggle with
      | none => simp [genericDetail, repoHasToggle, hl]
      | some t => simp [genericDetail, repoHasToggle, hl]
  exact ⟨key _, key _, key _, key _, key _, key _, key _, key _⟩

/-- Claim C3: evaluating the embedded `buildCounters` on a batch with
timestamps 1 and 2 shows the code assigns the maximum timestamp (2) to the
field returned as `StartTime` and the minimum (1) to `EndTime` — the
opposite of the claimed min/max assignment. -/
theorem buildCounters_start_gets_max_end_gets_min :
    buildCounters [sampleEvent 1, sampleEvent 2] =
      some ([({ key := "k", index := some 0, version := some 1 },
              { count := 1, value := .boolV true })], 2, 1) := by
  decide

/-- Claim C4 (counterexample): for the one-event batch the serialized flush
body is not a single JSON object — `doFlush` marshals the `[]PackedData`
slice, so the top level is a JSON array. -/
theorem flushBody_top_level_not_object :
    (flushBody [sampleEvent 1]).map Json.isObj = some false := by
  rfl

/-- Claim C4 (amended): for every non-empty event batch the serialized
flush body is a JSON array containing exactly one object, and that object
has precisely the top-level fields `events` and `access`. -/
theorem flushBody_singleton_array_events_access
    (events : List AccessEvent) (hne : events ≠ []) :
    ∃ a, buildAccess events = some a ∧
      flushBody events =
        some (Json.arr [Json.obj [("events", Json.arr (events.map encodeEvent)),
                                  ("access", encodeAccess a)]]) := by
  obtain ⟨a, ha⟩ := buildAccess_isSome events hne
  refine ⟨a, ha, ?_⟩
  have hne2 : events.isEmpty = false := by
    cases events with
    | nil => exact absurd rfl hne
    | cons x xs => rfl
  simp [flushBody, hne2, buildPackedData, ha, encodePackedList, encodePacked]

/-- Claim C4 (witness): the amended statement instantiated on the concrete
one-event batch. -/
theorem flushBody_singleton_array_events_access_witness :
    ∃ a, buildAccess [sampleEvent 1] = some a ∧
      flushBody [sampleEvent 1] =
        some (Json.arr [Json.obj
          [("events", Json.arr ([sampleEvent 1].map encodeEvent)),
           ("access", encodeAccess a)]]) :=
  flushBody_singleton_array_events_access [sampleEvent 1] (by simp)

/-- Claim C5: the recorder's lifecycle state machine evaluated concretely:
one `Start` then `Stop` terminates with exactly one final flush, but a
second `Start` is not a no-op (the `wg.Add(1)` sits outside the
`startOnce.Do` guard) even though only one flush loop exists, so after two
`Start` calls the WaitGroup counter can never reach zero and `Stop` blocks
forever; moreover the ticker is still running after `Stop`. -/
theorem recorder_second_start_breaks_stop_termination :
    stopReturns (startRecorderN 1) ∧
    (stopRecorder (startRecorderN 1)).finalFlushes = 1 ∧
    (startRecorderN 2).loops = 1 ∧
    startRecorder (startRecorderN 1) ≠ startRecorderN 1 ∧
    ¬ stopReturns (startRecorderN 2) ∧
    (stopRecorder (startRecorderN 1)).tickerRunning = true := by
  decide

/-- Claim C6 (counterexample): a toggle resolving to a Go `int`, queried
through the boolean detail accessor with default `true`, returns `true`
with reason "Value type mismatch" (capital V) — not the claimed lowercase
"value type mismatch". -/
theorem boolDetail_mismatch_reason_not_lowercase :
    (BoolDetail evalInt2 (some repo0) true 0 "t" user0 true).1.value = true ∧
    (BoolDetail evalInt2 (some repo0) true 0 "t" user0 true).1.reason =
      "Value type mismatch" ∧
    (BoolDetail evalInt2 (some repo0) true 0 "t" user0 true).1.reason ≠
      "value type mismatch" := by
  decide

/-- Claim C6 (amended): for each typed detail accessor, when the resolved
value's runtime kind does not match the requested kind, the returned detail
keeps the resolved rule index and version, carries the caller default
value, and has reason "Value type mismatch" (with a capital V, as in the
source). -/
theorem typed_detail_mismatch_keeps_metadata
    (evalFn : EvalFn) (r : Repository) (hasRec : Bool) (now : Int)
    (toggle : String) (user : FPUser) (t : Toggle) (detail : EvalDetail)
    (bd : Bool) (sd : String) (nd : ℚ)
    (ht : alistLookup r.toggles toggle = some t)
    (he : evalFn t user r.segments = (detail, none)) :
    (isBoolValue detail.value = false →
      (BoolDetail evalFn (some r) hasRec now toggle user bd).1 =
        { value := bd, ruleIndex := detail.ruleIndex, version := detail.version,
          reason := "Value type mismatch" }) ∧
    (isStrValue detail.value = false →
      (StrDetail evalFn (some r) hasRec now toggle user sd).1 =
        { value := sd, ruleIndex := detail.ruleIndex, version := detail.version,
          reason := "Value type mismatch" }) ∧
    (isFloatValue detail.value = false →
      (NumberDetail evalFn (some r) hasRec now toggle user nd).1 =
        { value := nd, ruleIndex := detail.ruleIndex, version := detail.version,
          reason := "Value type mismatch" }) := by
  have hg := genericDetail_found evalFn r hasRec now toggle user
  refine ⟨?_, ?_, ?_⟩ <;> intro hk <;>
    cases hv : detail.value <;>
      simp [BoolDetail, StrDetail, NumberDetail, hg _ t detail ht he, hv] <;>
        simp [isBoolValue, isStrValue, isFloatValue, hv] at hk

/-- Claim C6 (witness): the amended statement instantiated on the concrete
integer-valued toggle with all three typed detail accessors. -/
theorem typed_detail_mismatch_keeps_metadata_witness :
    (BoolDetail evalInt2 (some repo0) true 0 "t" user0 true).1 =
      { value := true, ruleIndex := some 0, version := some 1,
        reason := "Value type mismatch" } ∧
    (StrDetail evalInt2 (some repo0) true 0 "t" user0 "d").1 =
      { value := "d", ruleIndex := some 0, version := some 1,
        reason := "Value type mismatch" } ∧
    (NumberDetail evalInt2 (some repo0) true 0 "t" user0 9).1 =
      { value := 9, ruleIndex := some 0, version := some 1,
        reason := "Value type mismatch" } := by
  have h := typed_detail_mismatch_keeps_metadata evalInt2 repo0 true 0 "t" user0
    toggle0 detailInt2 true "d" 9 (by decide) rfl
  exact ⟨h.1 (by decide), h.2.1 (by decide), h.2.2 (by decide)⟩

/-- Claim C7: for a toggle key not found — either because the repository is
nil or because the key is absent from it — every one of the four value
accessors returns the caller default, every one of the four detail
accessors carries the caller default as its value, and each detail reason
contains "not exist". -/
theorem accessors_missing_toggle_return_default
    (evalFn : EvalFn) (repo : Option Repository) (hasRec : Bool)
    (now : Int) (toggle : String) (user : FPUser)
    (bd : Bool) (sd : String) (nd : ℚ) (jd : GoValue)
    (habs : repoHasToggle repo toggle = false) :
    (BoolValue evalFn repo hasRec now toggle user bd).1 = bd ∧
    (StrValue evalFn repo hasRec now toggle user sd).1 = sd ∧
    (NumberValue evalFn repo hasRec now toggle user nd).1 = nd ∧
    (JsonValue evalFn repo hasRec now toggle user jd).1 = jd ∧
    (BoolDetail evalFn repo hasRec now toggle user bd).1.value = bd ∧
    (StrDetail evalFn repo hasRec now toggle user sd).1.value = sd ∧
    (NumberDetail evalFn repo hasRec now toggle user nd).1.value = nd ∧
    (JsonDetail evalFn repo hasRec now toggle user jd).1.value = jd ∧
    strContains (BoolDetail evalFn repo hasRec now toggle user bd).1.reason "not exist" ∧
    strContains (StrDetail evalFn repo hasRec now toggle user sd).1.reason "not exist" ∧
    strContains (NumberDetail evalFn repo hasRec now toggle user nd).1.reason "not exist" ∧
    strContains (JsonDetail evalFn repo hasRec now toggle user jd).1.reason "not exist" := by
  have hg := genericDetail_not_found evalFn repo hasRec now toggle user
  refine ⟨?_, ?_, ?_, ?_, ?_, ?_, ?_, ?_, ?_, ?_, ?_, ?_⟩ <;>
    simp [BoolValue, StrValue, NumberValue, JsonValue, BoolDetail, StrDetail,
          NumberDetail, JsonDetail, hg _ habs, notExist_reason_contains]

/-- Claim C7 (witness): the statement instantiated on a nil repository with
concrete defaults for all four accessor kinds. -/
theorem accessors_missing_toggle_return_default_witness :
    (BoolValue constEvalFn none true 7 "bool_toggle" user0 true).1 = true ∧
    (StrValue constEvalFn none true 7 "bool_toggle" user0 "1").1 = "1" ∧
    (NumberValue constEvalFn none true 7 "bool_toggle" user0 1).1 = 1 ∧
    (JsonValue constEvalFn none true 7 "bool_toggle" user0 .nullV).1 = .nullV ∧
    (BoolDetail constEvalFn none true 7 "bool_toggle" user0 true).1.value = true ∧
    (StrDetail constEvalFn none true 7 "bool_toggle" user0 "1").1.value = "1" ∧
    (NumberDetail constEvalFn none true 7 "bool_toggle" user0 1).1.value = 1 ∧
    (JsonDetail constEvalFn none true 7 "bool_toggle" user0 .nullV).1.value = .nullV ∧
    strContains (BoolDetail constEvalFn none true 7 "bool_toggle" user0 true).1.reason
      "not exist" ∧
    strContains (StrDetail constEvalFn none true 7 "bool_toggle" user0 "1").1.reason
      "not exist" ∧
    strContains (NumberDetail constEvalFn none true 7 "bool_toggle" user0 1).1.reason
      "not exist" ∧
    strContains (JsonDetail constEvalFn none true 7 "bool_toggle" user0 .nullV).1.reason
      "not exist" :=
  accessors_missing_toggle_return_default constEvalFn none true 7 "bool_toggle" user0
    true "1" 1 .nullV (by decide)

/-- Claim C8: the JSON accessors never perform a type conversion: both
return exactly the value resolved by `genericDetail`, and `JsonDetail`
passes the resolved rule index, version and reason through unchanged — in
particular it never substitutes the reason "Value type mismatch". -/
theorem json_accessors_never_substitute_reason
    (evalFn : EvalFn) (repo : Option Repository) (hasRec : Bool)
    (now : Int) (toggle : String) (user : FPUser) (dv : GoValue) :
    (JsonValue evalFn repo hasRec now toggle user dv).1 =
      (genericDetail evalFn repo hasRec now toggle user dv).1.value ∧
    (JsonDetail evalFn repo hasRec now toggle user dv).1.value =
      (genericDetail evalFn repo hasRec now toggle user dv).1.value ∧
    (JsonDetail evalFn repo hasRec now toggle user dv).1.ruleIndex =
      (genericDetail evalFn repo hasRec now toggle user dv).1.ruleIndex ∧
    (JsonDetail evalFn repo hasRec now toggle user dv).1.version =
      (genericDetail evalFn repo hasRec now toggle user dv).1.version ∧
    (JsonDetail evalFn repo hasRec now toggle user dv).1.reason =
      (genericDetail evalFn repo hasRec now toggle user dv).1.reason :=
  ⟨rfl, rfl, rfl, rfl, rfl⟩

/-- Claim C9: with no options, `NewFeatureProbe` configures refresh/flush
interval 2000 and wait-for-first-response true; and each of the four
functional options rewrites exactly its own configuration field. -/
theorem newFeatureProbe_defaults_and_option_fields
    (remoteUrl sdkKey uri : String) (c : FPConfig) (i : Int) (w : Bool) :
    (NewFeatureProbeConfig remoteUrl sdkKey []).refreshInterval = 2000 ∧
    (NewFeatureProbeConfig remoteUrl sdkKey []).waitFirstResp = true ∧
    WithTogglesUri uri c = { c with togglesUrl := c.remoteUrl ++ uri } ∧
    WithEventsUri uri c = { c with eventsUrl := c.remoteUrl ++ uri } ∧
    WithRefreshInterval i c = { c with refreshInterval := i } ∧
    WithWaitFirstResp w c = { c with waitFirstResp := w } :=
  ⟨rfl, rfl, rfl, rfl, rfl, rfl⟩

/-- Claim C10: for a toggle whose resolved variation value is a Go `int`,
`NumberValue` returns that integer converted to `float64`, while
`NumberDetail` — which only attempts the `float64` assertion — returns the
caller default with reason "Value type mismatch" (keeping the resolved rule
index and version). -/
theorem number_value_and_detail_disagree_on_int
    (evalFn : EvalFn) (r : Repository) (hasRec : Bool) (now : Int)
    (toggle : String) (user : FPUser) (t : Toggle) (detail : EvalDetail)
    (i : Int) (nd : ℚ)
    (ht : alistLookup r.toggles toggle = some t)
    (he : evalFn t user r.segments = (detail, none))
    (hv : detail.value = .intV i) :
    (NumberValue evalFn (some r) hasRec now toggle user nd).1 = (i : ℚ) ∧
    (NumberDetail evalFn (some r) hasRec now toggle user nd).1 =
      { value := nd, ruleIndex := detail.ruleIndex, version := detail.version,
        reason := "Value type mismatch" } := by
  have hg := genericDetail_found evalFn r hasRec now toggle user
  constructor <;> simp [NumberValue, NumberDetail, hg _ t detail ht he, hv]

/-- Claim C10 (witness): the statement instantiated on the concrete toggle
resolving to the Go `int` 2, with caller default 9. -/
theorem number_value_and_detail_disagree_on_int_witness :
    (NumberValue evalInt2 (some repo0) true 0 "t" user0 9).1 = ((2 : Int) : ℚ) ∧
    (NumberDetail evalInt2 (some repo0) true 0 "t" user0 9).1 =
      { value := 9, ruleIndex := some 0, version := some 1,
        reason := "Value type mismatch" } :=
  number_value_and_detail_disagree_on_int evalInt2 repo0 true 0 "t" user0
    toggle0 detailInt2 2 9 (by decide) rfl rfl
